import Mathlib

/-
  Verification of the scene_sequencer Home Assistant custom component
  (custom_components/scene_sequencer/__init__.py).

  The embedding models:
  - generate_key: the MD5-based sequence key (full MD5 over Nat arithmetic,
    truncated hex digest);
  - is_current_state_matching_scene: the live-state-vs-scene check;
  - handle_sequence: the cycle service handler, returning the list of
    externally visible events (one scene activation, one store write);
  - the persisted store as an association list of entries with optional
    "idx", "ts" and "last_used" fields, timestamps as rationals.
-/

namespace SceneSequencer

/-! ## MD5 (used by generate_key) -/

/-- Modulus for 32-bit arithmetic. -/
def M32 : Nat := 4294967296

/-- UTF-8 encoding of a single character, as a list of byte values. -/
def utf8EncodeCharNat (c : Char) : List Nat :=
  let n := c.toNat
  if n < 128 then [n]
  else if n < 2048 then [192 + n / 64, 128 + n % 64]
  else if n < 65536 then [224 + n / 4096, 128 + (n / 64) % 64, 128 + n % 64]
  else [240 + n / 262144, 128 + (n / 4096) % 64, 128 + (n / 64) % 64, 128 + n % 64]

/-- UTF-8 bytes of a string. -/
def utf8Bytes (s : String) : List Nat :=
  s.data.flatMap utf8EncodeCharNat

/-- Little-endian byte serialization of a number, `k` bytes. -/
def toLE : Nat → Nat → List Nat
  | 0, _ => []
  | k + 1, n => (n % 256) :: toLE k (n / 256)

/-- 32-bit left rotation. -/
def rotl32 (x c : Nat) : Nat :=
  ((x <<< c) ||| (x >>> (32 - c))) % M32

/-- The 64 MD5 sine-derived constants. -/
def md5K : List Nat :=
  [0xd76aa478, 0xe8c7b756, 0x242070db, 0xc1bdceee,
   0xf57c0faf, 0x4787c62a, 0xa8304613, 0xfd469501,
   0x698098d8, 0x8b44f7af, 0xffff5bb1, 0x895cd7be,
   0x6b901122, 0xfd987193, 0xa679438e, 0x49b40821,
   0xf61e2562, 0xc040b340, 0x265e5a51, 0xe9b6c7aa,
   0xd62f105d, 0x02441453, 0xd8a1e681, 0xe7d3fbc8,
   0x21e1cde6, 0xc33707d6, 0xf4d50d87, 0x455a14ed,
   0xa9e3e905, 0xfcefa3f8, 0x676f02d9, 0x8d2a4c8a,
   0xfffa3942, 0x8771f681, 0x6d9d6122, 0xfde5380c,
   0xa4beea44, 0x4bdecfa9, 0xf6bb4b60, 0xbebfbc70,
   0x289b7ec6, 0xeaa127fa, 0xd4ef3085, 0x04881d05,
   0xd9d4d039, 0xe6db99e5, 0x1fa27cf8, 0xc4ac5665,
   0xf4292244, 0x432aff97, 0xab9423a7, 0xfc93a039,
   0x655b59c3, 0x8f0ccc92, 0xffeff47d, 0x85845dd1,
   0x6fa87e4f, 0xfe2ce6e0, 0xa3014314, 0x4e0811a1,
   0xf7537e82, 0xbd3af235, 0x2ad7d2bb, 0xeb86d391]

/-- The 64 MD5 per-round shift amounts. -/
def md5S : List Nat :=
  [7, 12, 17, 22, 7, 12, 17, 22, 7, 12, 17, 22, 7, 12, 17, 22,
   5, 9, 14, 20, 5, 9, 14, 20, 5, 9, 14, 20, 5, 9, 14, 20,
   4, 11, 16, 23, 4, 11, 16, 23, 4, 11, 16, 23, 4, 11, 16, 23,
   6, 10, 15, 21, 6, 10, 15, 21, 6, 10, 15, 21, 6, 10, 15, 21]

/-- MD5 round function and message index, for operation `i`. -/
def md5FG (i b c d : Nat) : Nat × Nat :=
  if i < 16 then ((b &&& c) ||| ((b ^^^ 0xffffffff) &&& d), i)
  else if i < 32 then ((d &&& b) ||| ((d ^^^ 0xffffffff) &&& c), (5 * i + 1) % 16)
  else if i < 48 then (b ^^^ c ^^^ d, (3 * i + 5) % 16)
  else (c ^^^ (b ||| (d ^^^ 0xffffffff)), (7 * i) % 16)

/-- Word `j` (little-endian 32-bit) of a 64-byte chunk. -/
def md5Word (chunk : List Nat) (j : Nat) : Nat :=
  chunk.getD (4 * j) 0 + (chunk.getD (4 * j + 1) 0) * 256 +
    (chunk.getD (4 * j + 2) 0) * 65536 + (chunk.getD (4 * j + 3) 0) * 16777216

/-- One MD5 operation on the running (a, b, c, d) state. -/
def md5Op (chunk : List Nat) (st : Nat × Nat × Nat × Nat) (i : Nat) : Nat × Nat × Nat × Nat :=
  let (a, b, c, d) := st
  let (f, g) := md5FG i b c d
  let f2 := (f + a + md5K.getD i 0 + md5Word chunk g) % M32
  (d, (b + rotl32 f2 (md5S.getD i 0)) % M32, b, c)

/-- Process a single 64-byte chunk. -/
def md5Chunk (h : Nat × Nat × Nat × Nat) (chunk : List Nat) : Nat × Nat × Nat × Nat :=
  let (a0, b0, c0, d0) := h
  let (a, b, c, d) := (List.range 64).foldl (md5Op chunk) (a0, b0, c0, d0)
  ((a0 + a) % M32, (b0 + b) % M32, (c0 + c) % M32, (d0 + d) % M32)

/-- Split a byte list into 64-byte chunks (structural recursion on a
fuel bound so that the definition reduces in the kernel). -/
def toChunksAux : Nat → List Nat → List (List Nat)
  | 0, _ => []
  | _, [] => []
  | fuel + 1, l => l.take 64 :: toChunksAux fuel (l.drop 64)

/-- Split a byte list into 64-byte chunks. -/
def toChunks (l : List Nat) : List (List Nat) :=
  toChunksAux l.length l

/-- MD5 padding: 0x80, zeros to 56 mod 64, then the 64-bit bit length. -/
def md5Pad (msg : List Nat) : List Nat :=
  let padLen := (64 + 56 - ((msg.length + 1) % 64)) % 64
  msg ++ [128] ++ List.replicate padLen 0 ++ toLE 8 (8 * msg.length)

/-- The 16-byte MD5 digest of a byte list. -/
def md5Bytes (msg : List Nat) : List Nat :=
  let st := (toChunks (md5Pad msg)).foldl md5Chunk
    (0x67452301, 0xefcdab89, 0x98badcfe, 0x10325476)
  toLE 4 st.1 ++ toLE 4 st.2.1 ++ toLE 4 st.2.2.1 ++ toLE 4 st.2.2.2

/-- Lowercase hex digit. -/
def hexDigit (n : Nat) : Char :=
  "0123456789abcdef".data.getD n '0'

/-- Lowercase hex representation of one byte. -/
def byteHex (b : Nat) : List Char :=
  [hexDigit (b / 16), hexDigit (b % 16)]

/-- Lowercase hex digest of a byte list. -/
def hexdigest (bytes : List Nat) : String :=
  String.mk (bytes.flatMap byteHex)

/-- generate_key from the source: first 10 hex characters of the MD5 of the
comma-joined scene entity ids.  (Irreducible: every proof below treats the
key as an opaque string; this keeps elaboration from unfolding the MD5.) -/
@[irreducible] def generate_key (scenes : List String) : String :=
  (hexdigest (md5Bytes (utf8Bytes (String.intercalate "," scenes)))).take 10

/-! ## Data model: persisted store, service-call input, host state -/

/-- CLEANUP_AGE_SECONDS from the source: 10 days in seconds. -/
def CLEANUP_AGE_SECONDS : ℚ := 10 * 24 * 60 * 60

/-- One persisted sequence entry. Fields model the JSON keys "idx", "ts"
and "last_used"; an `Option.none` field models a missing JSON key. -/
structure Entry where
  idx : Option ℤ := none
  ts : Option ℚ := none
  last_used : Option ℚ := none
deriving DecidableEq

/-- The persisted store: a mapping from 10-character sequence keys to
entries, serialized as one JSON object (modelled as an association list,
first occurrence wins on lookup, as for JSON object keys). -/
abbrev Store := List (String × Entry)

/-- Association-list lookup (Python dict .get). -/
def alistGet {α : Type} : List (String × α) → String → Option α
  | [], _ => none
  | (k, v) :: rest, key => if k = key then some v else alistGet rest key

/-- Python `mapping[key] = e`: replace the entry in place if the key is
present, otherwise append it. -/
def storeSet : Store → String → Entry → Store
  | [], key, e => [(key, e)]
  | (k, v) :: rest, key, e =>
      if k = key then (key, e) :: rest else (k, v) :: storeSet rest key e

/-- The garbage-collection staleness test from lines 123-127 of the
source: the entry has a "last_used" field and it is more than
CLEANUP_AGE_SECONDS older than the current time. -/
def entryStale (current_time : ℚ) (e : Entry) : Bool :=
  match e.last_used with
  | none => false
  | some lu => decide (current_time - lu > CLEANUP_AGE_SECONDS)

/-- Remove every stale entry from the store (the source builds
keys_to_remove and deletes them; this is the same store). -/
def gcStore (current_time : ℚ) (s : Store) : Store :=
  s.filter (fun kv => !entryStale current_time kv.2)

/-- The raw "scenes" field of the service call: a bare list, a dict
holding the list under "entity_id", or anything else. -/
inductive RawScenes where
  | listShape (l : List String)
  | entityIdDict (l : List String)
  | otherShape
deriving DecidableEq

/-- Lines 97-102 of the source: resolve the raw "scenes" field to a
scene list. -/
def resolveScenes : RawScenes → List String
  | .listShape l => l
  | .entityIdDict l => l
  | .otherShape => []

/-- A host-platform state object: its state string, its "entity_id"
attribute (absent, or a list of entity ids) and, for scene states, the
"state" value recorded under attributes[entity] for each entity (the
inner option models a missing "state" key). -/
structure StateObj where
  state : String
  entity_id : Option (List String) := none
  scene_attributes : List (String × Option String) := []

/-- The host platform's entity-state registry (hass.states.get). -/
structure Hass where
  states : String → Option StateObj

/-- The state read from the store sensor attribute: the sensor or its
data attribute may be absent (the source then parses "\x7b\x7d"), the
attribute may fail to parse as JSON, or it parses to a store mapping. -/
inductive StoreAttr where
  | absent
  | malformed
  | valid (s : Store)

/-- Lines 115-120 of the source: load the store, treating a missing
sensor/attribute or a JSON parse failure as an empty mapping. -/
def loadStore : StoreAttr → Store
  | .absent => []
  | .malformed => []
  | .valid s => s

/-! ## The two operations -/

/-- is_current_state_matching_scene from the source: resolve the scene
state; fail if absent or its "entity_id" attribute is falsy (absent or
the empty list); otherwise every referenced entity must have a live
state equal to the scene's recorded state for it, defaulting to "off". -/
def is_current_state_matching_scene (hass : Hass) (scene : String) : Bool :=
  match hass.states scene with
  | none => false
  | some scene_state =>
    match scene_state.entity_id with
    | none => false
    | some scene_entities =>
      if scene_entities.isEmpty then false
      else
        scene_entities.all fun entity =>
          match hass.states entity with
          | none => false
          | some current_state =>
            let expected_state := ((alistGet scene_state.scene_attributes entity).getD none).getD "off"
            decide (current_state.state = expected_state)

/-- Truthiness of the go_to_last_timeout value combined with the elapsed
condition (line 143 of the source): the timeout is present and nonzero,
the stored timestamp is positive, and at least the timeout has elapsed. -/
def timeoutFires (go_to_last_timeout : Option ℚ) (last_ts now_ts : ℚ) : Bool :=
  match go_to_last_timeout with
  | none => false
  | some q => decide (q ≠ 0) && decide (last_ts > 0) && decide (now_ts - last_ts ≥ q)

/-- The externally visible side effects of one service invocation:
a scene activation (scene.turn_on) or a write of the store sensor. -/
inductive Event where
  | activate (scene : String)
  | setStore (mapping : Store)
deriving DecidableEq

/-- handle_sequence from the source.  `t_gc`, `t_now` and `t_used` are
the values of the three successive time.time() calls (for garbage
collection, the timeout check, and the stored "last_used").  Returns the
emitted events in order: nothing for an empty scene list, otherwise one
activation followed by one store write. -/
def handle_sequence (hass : Hass) (raw : RawScenes) (go_to_last_timeout : Option ℚ)
    (store_attr : StoreAttr) (t_gc t_now t_used : ℚ) : List Event :=
  let scenes := resolveScenes raw
  if scenes.isEmpty then []
  else
    let key := generate_key scenes
    let mapping := gcStore t_gc (loadStore store_attr)
    let entry := (alistGet mapping key).getD { idx := some 0, ts := some 0 }
    let idx : ℤ := entry.idx.getD 0
    let last_ts : ℚ := entry.ts.getD 0
    let new_idx : ℤ := (idx + 1) % (scenes.length : ℤ)
    let target_scene := scenes.getD (idx % (scenes.length : ℤ)).toNat ""
    let step : String × ℤ :=
      if timeoutFires go_to_last_timeout last_ts t_now then
        if is_current_state_matching_scene hass (scenes.getLastD "") then
          (scenes.getD 0 "", 1)
        else
          (scenes.getLastD "", 0)
      else (target_scene, new_idx)
    let now_ts : ℚ := if step.2 = 0 then 0 else t_now
    [Event.activate step.1,
     Event.setStore (storeSet mapping key
       { idx := some step.2, ts := some now_ts, last_used := some t_used })]

/-- The scene activated by an invocation, if any. -/
def activatedScene (events : List Event) : Option String :=
  events.findSome? fun e =>
    match e with
    | .activate s => some s
    | _ => none

/-- The store written by an invocation, if any. -/
def writtenStore (events : List Event) : Option Store :=
  events.findSome? fun e =>
    match e with
    | .setStore s => some s
    | _ => none

/-- Number of scene activations among the emitted events. -/
def countActivations (events : List Event) : Nat :=
  (events.filter fun e =>
    match e with
    | .activate _ => true
    | _ => false).length

/-- Number of store writes among the emitted events. -/
def countStoreWrites (events : List Event) : Nat :=
  (events.filter fun e =>
    match e with
    | .setStore _ => true
    | _ => false).length

/-- Iterated invocation: `runCycle … n` is the store before call `n`,
starting from `s0`, feeding each written store into the next call; call
`n` happens at time `times n` (all three clock reads of one call made at
that time). -/
def runCycle (hass : Hass) (raw : RawScenes) (go_to_last_timeout : Option ℚ)
    (times : ℕ → ℚ) (s0 : Store) : ℕ → Store
  | 0 => s0
  | n + 1 =>
      let s := runCycle hass raw go_to_last_timeout times s0 n
      (writtenStore (handle_sequence hass raw go_to_last_timeout (.valid s)
        (times n) (times n) (times n))).getD s

/-! ## Concrete host instances used in witness statements -/

/-- A host platform with no entities at all. -/
def hassEmpty : Hass := ⟨fun _ => none⟩

/-- A host platform where scene "scene.c" controls "light.l" with target
state "on", and "light.l" currently is "on" (so the scene matches). -/
def hassMatch : Hass :=
  ⟨fun s =>
    if s = "scene.c" then
      some { state := "scening", entity_id := some ["light.l"],
             scene_attributes := [("light.l", some "on")] }
    else if s = "light.l" then some { state := "on" }
    else none⟩

/-! ## Helper lemmas: association list, store update, garbage collection -/

theorem alistGet_storeSet_self (s : Store) (k : String) (e : Entry) :
    alistGet (storeSet s k e) k = some e := by
  induction s with
  | nil => simp [storeSet, alistGet]
  | cons kv rest ih =>
      obtain ⟨k', v⟩ := kv
      by_cases h : k' = k
      · simp [storeSet, h, alistGet]
      · simp [storeSet, h, alistGet, ih]

theorem alistGet_storeSet_ne (s : Store) (k k' : String) (e : Entry) (h : k' ≠ k) :
    alistGet (storeSet s k e) k' = alistGet s k' := by
  have hk : ¬k = k' := fun hc => h hc.symm
  induction s with
  | nil => simp [storeSet, alistGet, hk]
  | cons kv rest ih =>
      obtain ⟨k0, v⟩ := kv
      by_cases h0 : k0 = k
      · subst h0
        simp [storeSet, alistGet, hk]
      · simp [storeSet, h0, alistGet, ih]

theorem alistGet_gc_none (s : Store) (t : ℚ) (k : String)
    (h : alistGet s k = none) : alistGet (gcStore t s) k = none := by
  induction s with
  | nil => simp [gcStore, alistGet]
  | cons kv rest ih =>
      obtain ⟨k0, v⟩ := kv
      by_cases h0 : k0 = k
      · simp [alistGet, h0] at h
      · simp only [alistGet, if_neg h0] at h
        by_cases hs : entryStale t v
        · simpa [gcStore, hs] using ih h
        · simpa [gcStore, hs, alistGet, h0] using ih h

theorem alistGet_gc_some (s : Store) (t : ℚ) (k : String) (e : Entry)
    (h : alistGet s k = some e) (hs : entryStale t e = false) :
    alistGet (gcStore t s) k = some e := by
  induction s with
  | nil => simp [alistGet] at h
  | cons kv rest ih =>
      obtain ⟨k0, v⟩ := kv
      by_cases h0 : k0 = k
      · subst h0
        simp only [alistGet, if_pos rfl] at h
        cases h
        simp [gcStore, hs, alistGet]
      · simp only [alistGet, if_neg h0] at h
        by_cases hv : entryStale t v
        · simpa [gcStore, hv] using ih h
        · simpa [gcStore, hv, alistGet, h0] using ih h

theorem alistGet_eq_none_of_not_mem (s : Store) (k : String)
    (h : k ∉ s.map Prod.fst) : alistGet s k = none := by
  induction s with
  | nil => simp [alistGet]
  | cons kv rest ih =>
      obtain ⟨k0, v⟩ := kv
      simp only [List.map_cons, List.mem_cons] at h
      push_neg at h
      have hk : ¬k0 = k := fun hc => h.1 hc.symm
      simp [alistGet, hk, ih h.2]

theorem alistGet_gc_stale (s : Store) (t : ℚ) (k : String) (e : Entry)
    (hnd : (s.map Prod.fst).Nodup)
    (h : alistGet s k = some e) (hs : entryStale t e = true) :
    alistGet (gcStore t s) k = none := by
  induction s with
  | nil => simp [alistGet] at h
  | cons kv rest ih =>
      obtain ⟨k0, v⟩ := kv
      simp only [List.map_cons, List.nodup_cons] at hnd
      by_cases h0 : k0 = k
      · subst h0
        simp only [alistGet, if_pos rfl] at h
        injection h with h2
        subst h2
        have hn : alistGet rest k0 = none :=
          alistGet_eq_none_of_not_mem rest k0 hnd.1
        simpa [gcStore, hs] using alistGet_gc_none rest t k0 hn
      · simp only [alistGet, if_neg h0] at h
        by_cases hv : entryStale t v
        · simpa [gcStore, hv] using ih hnd.2 h
        · simpa [gcStore, hv, alistGet, h0] using ih hnd.2 h

/-! ## Helper lemmas: timeout truthiness -/

theorem timeoutFires_of_disabled (tm : Option ℚ) (l n : ℚ)
    (h : tm = none ∨ tm = some 0) : timeoutFires tm l n = false := by
  rcases h with h | h <;> subst h <;> simp [timeoutFires]

theorem timeoutFires_pos (tm : Option ℚ) (l n : ℚ)
    (h : timeoutFires tm l n = true) : 0 < l := by
  cases tm with
  | none => simp [timeoutFires] at h
  | some q =>
      simp only [timeoutFires, Bool.and_eq_true, decide_eq_true_eq] at h
      exact h.1.2

/-! ## Helper lemma: the handler on a non-empty scene list -/

/-- The default entry used when the key is absent from the store. -/
def defaultEntry : Entry := { idx := some 0, ts := some 0 }

/-- The target scene and next index computed by one invocation, given the
(post-garbage-collection) entry for this sequence. -/
def seqStep (hass : Hass) (scenes : List String) (tm : Option ℚ)
    (entry : Entry) (t2 : ℚ) : String × ℤ :=
  if timeoutFires tm (entry.ts.getD 0) t2 then
    if is_current_state_matching_scene hass (scenes.getLastD "") then
      (scenes.getD 0 "", 1)
    else
      (scenes.getLastD "", 0)
  else
    (scenes.getD ((entry.idx.getD 0) % (scenes.length : ℤ)).toNat "",
     ((entry.idx.getD 0) + 1) % (scenes.length : ℤ))

theorem handle_sequence_cons (hass : Hass) (raw : RawScenes) (tm : Option ℚ)
    (sa : StoreAttr) (t1 t2 t3 : ℚ) (hne : resolveScenes raw ≠ []) :
    handle_sequence hass raw tm sa t1 t2 t3 =
      [Event.activate
        (seqStep hass (resolveScenes raw) tm
          ((alistGet (gcStore t1 (loadStore sa)) (generate_key (resolveScenes raw))).getD
            defaultEntry) t2).1,
       Event.setStore (storeSet (gcStore t1 (loadStore sa)) (generate_key (resolveScenes raw))
         { idx := some (seqStep hass (resolveScenes raw) tm
             ((alistGet (gcStore t1 (loadStore sa)) (generate_key (resolveScenes raw))).getD
               defaultEntry) t2).2,
           ts := some (if (seqStep hass (resolveScenes raw) tm
             ((alistGet (gcStore t1 (loadStore sa)) (generate_key (resolveScenes raw))).getD
               defaultEntry) t2).2 = 0 then 0 else t2),
           last_used := some t3 })] := by
  unfold handle_sequence
  rw [if_neg (by simpa [List.isEmpty_iff] using hne)]
  rfl

/-! ## Claims -/

/-- Claim C9: supplying the scene list wrapped in a dict under the
entity_id field behaves identically (same events, hence same activation
and same persisted store) to supplying the list directly; any other
shape resolves to the empty list and the invocation is a no-op. -/
theorem C9_input_shape_equivalence :
    (∀ (hass : Hass) (L : List String) (tm : Option ℚ) (sa : StoreAttr) (t1 t2 t3 : ℚ),
      handle_sequence hass (.entityIdDict L) tm sa t1 t2 t3 =
        handle_sequence hass (.listShape L) tm sa t1 t2 t3) ∧
    resolveScenes .otherShape = [] ∧
    (∀ (hass : Hass) (tm : Option ℚ) (sa : StoreAttr) (t1 t2 t3 : ℚ),
      handle_sequence hass .otherShape tm sa t1 t2 t3 = []) :=
  ⟨fun _ _ _ _ _ _ _ => rfl, rfl, fun _ _ _ _ _ _ => rfl⟩

/-- Claim C7: an invocation whose scene list resolves to empty emits no
events at all (no activation, no store write); an invocation with a
non-empty scene list emits exactly one scene activation and exactly one
store write. -/
theorem C7_side_effects (hass : Hass) (raw : RawScenes) (tm : Option ℚ)
    (sa : StoreAttr) (t1 t2 t3 : ℚ) :
    (resolveScenes raw = [] → handle_sequence hass raw tm sa t1 t2 t3 = []) ∧
    (resolveScenes raw ≠ [] →
      countActivations (handle_sequence hass raw tm sa t1 t2 t3) = 1 ∧
      countStoreWrites (handle_sequence hass raw tm sa t1 t2 t3) = 1) := by
  constructor
  · intro h
    unfold handle_sequence
    rw [if_pos (by simp [h])]
  · intro h
    rw [handle_sequence_cons hass raw tm sa t1 t2 t3 h]
    constructor <;> rfl

/-- Witness for C7 at concrete inputs: an unrecognized shape is a no-op,
and a one-scene invocation emits exactly one activation. -/
theorem C7_side_effects_witness :
    handle_sequence hassEmpty .otherShape none .absent 0 0 0 = [] ∧
    countActivations (handle_sequence hassEmpty (.listShape ["scene.a"]) none .absent 0 0 0) = 1 :=
  ⟨(C7_side_effects hassEmpty .otherShape none .absent 0 0 0).1 rfl,
   ((C7_side_effects hassEmpty (.listShape ["scene.a"]) none .absent 0 0 0).2
     (by decide)).1⟩

/-- Claim C6: a missing or unparseable store attribute yields exactly
the behavior of an empty store (no failure), and for a non-empty scene
list the written store does contain this sequence's entry. -/
theorem C6_store_corruption (hass : Hass) (raw : RawScenes) (tm : Option ℚ) (t1 t2 t3 : ℚ) :
    handle_sequence hass raw tm .absent t1 t2 t3 =
      handle_sequence hass raw tm (.valid []) t1 t2 t3 ∧
    handle_sequence hass raw tm .malformed t1 t2 t3 =
      handle_sequence hass raw tm (.valid []) t1 t2 t3 ∧
    (resolveScenes raw ≠ [] →
      ∃ s', writtenStore (handle_sequence hass raw tm .malformed t1 t2 t3) = some s' ∧
        (alistGet s' (generate_key (resolveScenes raw))).isSome = true) := by
  refine ⟨rfl, rfl, fun h => ?_⟩
  rw [handle_sequence_cons hass raw tm .malformed t1 t2 t3 h]
  exact ⟨_, rfl, by rw [alistGet_storeSet_self]; rfl⟩

/-- Witness for C6 at concrete inputs. -/
theorem C6_store_corruption_witness :
    handle_sequence hassEmpty (.listShape ["scene.a"]) none .malformed 1 1 1 =
      handle_sequence hassEmpty (.listShape ["scene.a"]) none (.valid []) 1 1 1 ∧
    ∃ s', writtenStore (handle_sequence hassEmpty (.listShape ["scene.a"]) none .malformed 1 1 1) =
        some s' ∧
      (alistGet s' (generate_key ["scene.a"])).isSome = true :=
  ⟨(C6_store_corruption hassEmpty (.listShape ["scene.a"]) none 1 1 1).1,
   (C6_store_corruption hassEmpty (.listShape ["scene.a"]) none 1 1 1).2.2 (by decide)⟩

/-- Claim C10: whenever the call-time clock is positive and the scene
list is non-empty, the entry written by the invocation has its timestamp
equal to zero exactly when its index is zero. -/
theorem C10_ts_idx_consistency (hass : Hass) (raw : RawScenes) (tm : Option ℚ)
    (sa : StoreAttr) (t1 t2 t3 : ℚ) (hne : resolveScenes raw ≠ []) (hpos : 0 < t2) :
    ∃ s', writtenStore (handle_sequence hass raw tm sa t1 t2 t3) = some s' ∧
      ∃ i v lu, alistGet s' (generate_key (resolveScenes raw)) =
        some { idx := some i, ts := some v, last_used := some lu } ∧ (v = 0 ↔ i = 0) := by
  rw [handle_sequence_cons hass raw tm sa t1 t2 t3 hne]
  refine ⟨_, rfl, _, _, t3, alistGet_storeSet_self _ _ _, ?_⟩
  by_cases h : (seqStep hass (resolveScenes raw) tm
      ((alistGet (gcStore t1 (loadStore sa)) (generate_key (resolveScenes raw))).getD
        defaultEntry) t2).2 = 0
  · simp [h]
  · simp only [if_neg h]
    constructor
    · intro hv
      exact absurd (hv ▸ hpos) (lt_irrefl 0)
    · intro hi
      exact absurd hi h

/-- Witness for C10 at concrete inputs. -/
theorem C10_ts_idx_consistency_witness :
    ∃ s', writtenStore (handle_sequence hassEmpty (.listShape ["scene.a", "scene.b"]) none
        .absent 1 1 1) = some s' ∧
      ∃ i v lu, alistGet s' (generate_key ["scene.a", "scene.b"]) =
        some { idx := some i, ts := some v, last_used := some lu } ∧ (v = 0 ↔ i = 0) :=
  C10_ts_idx_consistency hassEmpty (.listShape ["scene.a", "scene.b"]) none .absent 1 1 1
    (by decide) (by norm_num)

/-- Claim C8: the state-match check succeeds exactly when the scene
resolves to a state object whose entity_id attribute is a non-empty
list and every referenced entity has a live state equal to the scene's
recorded state for it (defaulting to "off"); in every other situation —
unresolvable scene, no entities, a missing live state, or any state
mismatch — it reports no match. -/
theorem C8_state_match (hass : Hass) (scene : String) :
    is_current_state_matching_scene hass scene = true ↔
      ∃ st, hass.states scene = some st ∧
        ∃ l, st.entity_id = some l ∧ l ≠ [] ∧
          ∀ e ∈ l, ∃ cs, hass.states e = some cs ∧
            cs.state = ((alistGet st.scene_attributes e).getD none).getD "off" := by
  unfold is_current_state_matching_scene
  cases hs : hass.states scene with
  | none => simp
  | some st =>
      cases he : st.entity_id with
      | none => simp [he]
      | some l =>
          by_cases hl : l.isEmpty
          · have h0 : l = [] := List.isEmpty_iff.mp hl
            subst h0
            simp [he]
          · simp only [he, if_neg hl, List.all_eq_true]
            constructor
            · intro h
              refine ⟨st, rfl, l, he, fun hc => by simp [hc] at hl, fun e hme => ?_⟩
              have hx := h e hme
              cases hcs : hass.states e with
              | none => simp [hcs] at hx
              | some cs =>
                  simp only [hcs, decide_eq_true_eq] at hx
                  exact ⟨cs, rfl, hx⟩
            · rintro ⟨st', hst', l', hl', hne', hall⟩ e hme
              injection hst' with h1
              subst h1
              rw [he] at hl'
              injection hl' with h2
              subst h2
              obtain ⟨cs, hcs, hstate⟩ := hall e hme
              simp [hcs, hstate]

/-- Witness for C8 at a concrete input: the matching host of hassMatch
really is reported as a match. -/
theorem C8_state_match_witness :
    is_current_state_matching_scene hassMatch "scene.c" = true :=
  (C8_state_match hassMatch "scene.c").mpr (by decide)

/-- Claim C3: with a timeout configured, a positive stored timestamp, at
least the timeout elapsed, and the live states not matching the last
scene, the invocation activates the last scene and persists index 0 and
timestamp 0. -/
theorem C3_timeout_jump_nonmatching (hass : Hass) (raw : RawScenes) (T : ℚ)
    (sa : StoreAttr) (t1 t2 t3 : ℚ) (e : Entry) (v : ℚ)
    (hne : resolveScenes raw ≠ [])
    (hT : T ≠ 0)
    (hent : alistGet (gcStore t1 (loadStore sa)) (generate_key (resolveScenes raw)) = some e)
    (hts : e.ts = some v) (hv : 0 < v)
    (helapsed : t2 - v ≥ T)
    (hmatch : is_current_state_matching_scene hass ((resolveScenes raw).getLastD "") = false) :
    activatedScene (handle_sequence hass raw (some T) sa t1 t2 t3) =
      some ((resolveScenes raw).getLastD "") ∧
    ∃ s', writtenStore (handle_sequence hass raw (some T) sa t1 t2 t3) = some s' ∧
      alistGet s' (generate_key (resolveScenes raw)) =
        some { idx := some 0, ts := some 0, last_used := some t3 } := by
  have hfire : timeoutFires (some T) (e.ts.getD 0) t2 = true := by
    simp [timeoutFires, hts, hT, hv, helapsed]
  have hstep : seqStep hass (resolveScenes raw) (some T)
      ((alistGet (gcStore t1 (loadStore sa)) (generate_key (resolveScenes raw))).getD
        defaultEntry) t2 = ((resolveScenes raw).getLastD "", 0) := by
    rw [hent]
    unfold seqStep
    rw [Option.getD_some, if_pos hfire,
      if_neg (by rw [hmatch]; exact Bool.false_ne_true)]
  rw [handle_sequence_cons hass raw (some T) sa t1 t2 t3 hne, hstep]
  refine ⟨rfl, _, rfl, ?_⟩
  rw [alistGet_storeSet_self]
  norm_num

/-- Witness for C3 at concrete inputs (a two-scene sequence, timeout 60,
stored timestamp 5, call at time 100, no matching scene). -/
theorem C3_timeout_jump_nonmatching_witness :
    activatedScene (handle_sequence hassEmpty (.listShape ["scene.a", "scene.c"]) (some 60)
        (.valid [(generate_key ["scene.a", "scene.c"],
          { idx := some 1, ts := some 5 })]) 100 100 100) =
      some "scene.c" ∧
    ∃ s', writtenStore (handle_sequence hassEmpty (.listShape ["scene.a", "scene.c"]) (some 60)
        (.valid [(generate_key ["scene.a", "scene.c"],
          { idx := some 1, ts := some 5 })]) 100 100 100) = some s' ∧
      alistGet s' (generate_key ["scene.a", "scene.c"]) =
        some { idx := some 0, ts := some 0, last_used := some 100 } := by
  have h := C3_timeout_jump_nonmatching hassEmpty (.listShape ["scene.a", "scene.c"]) 60
    (.valid [(generate_key ["scene.a", "scene.c"], { idx := some 1, ts := some 5 })]) 100 100 100
    { idx := some 1, ts := some 5 } 5
    (by decide) (by norm_num)
    (by simp [loadStore, gcStore, entryStale, alistGet, resolveScenes])
    rfl (by norm_num) (by norm_num) rfl
  exact h

/-- Claim C4: with a timeout configured, a positive stored timestamp, at
least the timeout elapsed, and the live states already matching the last
scene, the invocation activates the first scene and persists index 1 and
the current time as the timestamp. -/
theorem C4_timeout_jump_matching (hass : Hass) (raw : RawScenes) (T : ℚ)
    (sa : StoreAttr) (t1 t2 t3 : ℚ) (e : Entry) (v : ℚ)
    (hne : resolveScenes raw ≠ [])
    (hT : T ≠ 0)
    (hent : alistGet (gcStore t1 (loadStore sa)) (generate_key (resolveScenes raw)) = some e)
    (hts : e.ts = some v) (hv : 0 < v)
    (helapsed : t2 - v ≥ T)
    (hmatch : is_current_state_matching_scene hass ((resolveScenes raw).getLastD "") = true) :
    activatedScene (handle_sequence hass raw (some T) sa t1 t2 t3) =
      some ((resolveScenes raw).getD 0 "") ∧
    ∃ s', writtenStore (handle_sequence hass raw (some T) sa t1 t2 t3) = some s' ∧
      alistGet s' (generate_key (resolveScenes raw)) =
        some { idx := some 1, ts := some t2, last_used := some t3 } := by
  have hfire : timeoutFires (some T) (e.ts.getD 0) t2 = true := by
    simp [timeoutFires, hts, hT, hv, helapsed]
  have hstep : seqStep hass (resolveScenes raw) (some T)
      ((alistGet (gcStore t1 (loadStore sa)) (generate_key (resolveScenes raw))).getD
        defaultEntry) t2 = ((resolveScenes raw).getD 0 "", 1) := by
    rw [hent]
    unfold seqStep
    rw [Option.getD_some, if_pos hfire, if_pos hmatch]
  rw [handle_sequence_cons hass raw (some T) sa t1 t2 t3 hne, hstep]
  refine ⟨rfl, _, rfl, ?_⟩
  rw [alistGet_storeSet_self]
  norm_num

/-- Witness for C4 at concrete inputs (scene.c of hassMatch matches the
live states at call time). -/
theorem C4_timeout_jump_matching_witness :
    activatedScene (handle_sequence hassMatch (.listShape ["scene.a", "scene.c"]) (some 60)
        (.valid [(generate_key ["scene.a", "scene.c"],
          { idx := some 1, ts := some 5 })]) 100 100 100) =
      some "scene.a" ∧
    ∃ s', writtenStore (handle_sequence hassMatch (.listShape ["scene.a", "scene.c"]) (some 60)
        (.valid [(generate_key ["scene.a", "scene.c"],
          { idx := some 1, ts := some 5 })]) 100 100 100) = some s' ∧
      alistGet s' (generate_key ["scene.a", "scene.c"]) =
        some { idx := some 1, ts := some 100, last_used := some 100 } := by
  have h := C4_timeout_jump_matching hassMatch (.listShape ["scene.a", "scene.c"]) 60
    (.valid [(generate_key ["scene.a", "scene.c"], { idx := some 1, ts := some 5 })]) 100 100 100
    { idx := some 1, ts := some 5 } 5
    (by decide) (by norm_num)
    (by simp [loadStore, gcStore, entryStale, alistGet, resolveScenes])
    rfl (by norm_num) (by norm_num) (by decide)
  exact h

/-- Claim C5: an entry whose last_used timestamp is more than 10 days
older than the garbage-collection clock is gone from the written store:
under any other key the written store holds nothing, and whatever the
written store holds under any key carries the fresh last_used timestamp
of this call. -/
theorem C5_garbage_collection (hass : Hass) (raw : RawScenes) (tm : Option ℚ)
    (sa : StoreAttr) (t1 t2 t3 : ℚ) (k : String) (e : Entry) (lu : ℚ)
    (hne : resolveScenes raw ≠ [])
    (hnd : ((loadStore sa).map Prod.fst).Nodup)
    (hk : alistGet (loadStore sa) k = some e)
    (hlu : e.last_used = some lu)
    (hstale : t1 - lu > CLEANUP_AGE_SECONDS) :
    ∃ s', writtenStore (handle_sequence hass raw tm sa t1 t2 t3) = some s' ∧
      (k ≠ generate_key (resolveScenes raw) → alistGet s' k = none) ∧
      (∀ e', alistGet s' k = some e' → e'.last_used = some t3) := by
  have hstale' : entryStale t1 e = true := by simp [entryStale, hlu, hstale]
  have hgc : alistGet (gcStore t1 (loadStore sa)) k = none :=
    alistGet_gc_stale _ _ _ _ hnd hk hstale'
  rw [handle_sequence_cons hass raw tm sa t1 t2 t3 hne]
  refine ⟨_, rfl, ?_, ?_⟩
  · intro hkne
    rw [alistGet_storeSet_ne _ _ _ _ hkne, hgc]
  · intro e' he'
    rcases eq_or_ne k (generate_key (resolveScenes raw)) with hkk | hkk
    · subst hkk
      rw [alistGet_storeSet_self] at he'
      injection he' with h2
      rw [← h2]
    · rw [alistGet_storeSet_ne _ _ _ _ hkk, hgc] at he'
      cases he'

/-- Witness for C5 at concrete inputs: a foreign entry last used at time
0 is purged by a call of another sequence at time 1000000. -/
theorem C5_garbage_collection_witness :
    ∃ s', writtenStore (handle_sequence hassEmpty (.listShape ["scene.a"]) none
        (.valid [(generate_key ["scene.x"],
          { idx := some 0, ts := some 0, last_used := some 0 })]) 1000000 1000000 1000000) =
        some s' ∧
      (generate_key ["scene.x"] ≠ generate_key ["scene.a"] →
        alistGet s' (generate_key ["scene.x"]) = none) ∧
      (∀ e', alistGet s' (generate_key ["scene.x"]) = some e' →
        e'.last_used = some 1000000) := by
  have h := C5_garbage_collection hassEmpty (.listShape ["scene.a"]) none
    (.valid [(generate_key ["scene.x"],
      { idx := some 0, ts := some 0, last_used := some 0 })]) 1000000 1000000 1000000
    (generate_key ["scene.x"]) { idx := some 0, ts := some 0, last_used := some 0 } 0
    (by decide) (by simp [loadStore]) (by simp [loadStore, alistGet]) rfl
    (by norm_num [CLEANUP_AGE_SECONDS])
  exact h

/-- The invariant preserved by the handler for a given sequence length:
the entry's index field is present and in the half-open range below the
length, and a zero index comes with a zero timestamp. -/
def entryInv (len : ℕ) (e : Entry) : Prop :=
  ∃ i : ℤ, e.idx = some i ∧ 0 ≤ i ∧ i < (len : ℤ) ∧ (i = 0 → e.ts = some 0)

/-- Claim C2: when the entry the handler reads for this sequence (if
any) was itself written by the handler — it satisfies entryInv — then
the entry written by the invocation again satisfies entryInv, so in
particular its persisted index lies in the interval from 0 (inclusive)
to the sequence length (exclusive). -/
theorem C2_index_invariant (hass : Hass) (raw : RawScenes) (tm : Option ℚ)
    (sa : StoreAttr) (t1 t2 t3 : ℚ)
    (hne : resolveScenes raw ≠ [])
    (hinv : ∀ e, alistGet (gcStore t1 (loadStore sa)) (generate_key (resolveScenes raw)) =
        some e → entryInv (resolveScenes raw).length e) :
    ∃ s' e', writtenStore (handle_sequence hass raw tm sa t1 t2 t3) = some s' ∧
      alistGet s' (generate_key (resolveScenes raw)) = some e' ∧
      entryInv (resolveScenes raw).length e' := by
  have hlen : 0 < (resolveScenes raw).length := List.length_pos.mpr hne
  have hlenz : ((resolveScenes raw).length : ℤ) ≠ 0 := by
    exact_mod_cast Nat.pos_iff_ne_zero.mp hlen
  have hlenpos : (0 : ℤ) < ((resolveScenes raw).length : ℤ) := by exact_mod_cast hlen
  have hentinv : entryInv (resolveScenes raw).length
      ((alistGet (gcStore t1 (loadStore sa)) (generate_key (resolveScenes raw))).getD
        defaultEntry) := by
    cases hent : alistGet (gcStore t1 (loadStore sa)) (generate_key (resolveScenes raw)) with
    | none =>
        exact ⟨0, rfl, le_refl 0, hlenpos, fun _ => rfl⟩
    | some e => simpa using hinv e hent
  rw [handle_sequence_cons hass raw tm sa t1 t2 t3 hne]
  refine ⟨_, _, rfl, alistGet_storeSet_self _ _ _, ?_⟩
  obtain ⟨i, hi, h0i, hilen, hts0⟩ := hentinv
  set ent := (alistGet (gcStore t1 (loadStore sa)) (generate_key (resolveScenes raw))).getD
    defaultEntry with hentdef
  refine ⟨(seqStep hass (resolveScenes raw) tm ent t2).2, rfl, ?_, ?_, fun hz => by
    rw [if_pos hz]⟩
  · by_cases hfire : timeoutFires tm (ent.ts.getD 0) t2
    · unfold seqStep
      rw [if_pos hfire]
      by_cases hm : is_current_state_matching_scene hass ((resolveScenes raw).getLastD "")
      · rw [if_pos hm]
        norm_num
      · rw [if_neg hm]
    · unfold seqStep
      rw [if_neg hfire]
      exact Int.emod_nonneg _ hlenz
  · by_cases hfire : timeoutFires tm (ent.ts.getD 0) t2
    · unfold seqStep
      rw [if_pos hfire]
      by_cases hm : is_current_state_matching_scene hass ((resolveScenes raw).getLastD "")
      · rw [if_pos hm]
        have hlpos : 0 < ent.ts.getD 0 := timeoutFires_pos _ _ _ hfire
        have hine : i ≠ 0 := by
          intro hiz
          rw [hts0 hiz] at hlpos
          simp at hlpos
        have h1i : 1 ≤ i := by omega
        exact lt_of_le_of_lt h1i hilen
      · rw [if_neg hm]
        exact hlenpos
    · unfold seqStep
      rw [if_neg hfire]
      exact Int.emod_lt_of_pos _ hlenpos

/-- Witness for C2 at concrete inputs. -/
theorem C2_index_invariant_witness :
    ∃ s' e', writtenStore (handle_sequence hassEmpty (.listShape ["scene.a"]) none
        .absent 0 0 0) = some s' ∧
      alistGet s' (generate_key ["scene.a"]) = some e' ∧
      entryInv (resolveScenes (.listShape ["scene.a"])).length e' :=
  C2_index_invariant hassEmpty (.listShape ["scene.a"]) none .absent 0 0 0
    (by decide) (fun _ h => nomatch h)

/-! ## Claim C1: round-robin cycling without a timeout -/

theorem natCast_mod_self (a b : ℕ) :
    (((a % b : ℕ) : ℤ) % (b : ℤ)).toNat = a % b := by
  have h : a % b % b = a % b := Nat.mod_mod_of_dvd a dvd_rfl
  rw [← Int.natCast_mod, h, Int.toNat_natCast]

theorem natCast_mod_succ (a b : ℕ) :
    (((a % b : ℕ) : ℤ) + 1) % (b : ℤ) = (((a + 1) % b : ℕ) : ℤ) := by
  have h1 : ((a % b : ℕ) : ℤ) + 1 = ((a % b + 1 : ℕ) : ℤ) := by push_cast; ring
  rw [h1, ← Int.natCast_mod, Nat.mod_add_mod]

theorem writtenStore_pair (a : String) (m : Store) (s : Store) :
    (writtenStore [Event.activate a, Event.setStore m]).getD s = m := rfl

theorem activatedScene_pair (a : String) (m : Store) :
    activatedScene [Event.activate a, Event.setStore m] = some a := rfl

theorem runCycle_succ (hass : Hass) (raw : RawScenes) (tm : Option ℚ)
    (times : ℕ → ℚ) (s0 : Store) (n : ℕ) :
    runCycle hass raw tm times s0 (n + 1) =
      (writtenStore (handle_sequence hass raw tm
        (.valid (runCycle hass raw tm times s0 n)) (times n) (times n) (times n))).getD
        (runCycle hass raw tm times s0 n) := rfl

/-- One invocation with the timeout disabled, read off against a stored
index congruent to the call number. -/
theorem handle_sequence_no_timeout (hass : Hass) (raw : RawScenes) (tm : Option ℚ)
    (sa : StoreAttr) (t1 t2 t3 : ℚ) (n : ℕ)
    (hne : resolveScenes raw ≠ [])
    (htm : tm = none ∨ tm = some 0)
    (hidx : ((alistGet (gcStore t1 (loadStore sa)) (generate_key (resolveScenes raw))).getD
      defaultEntry).idx = some ((n % (resolveScenes raw).length : ℕ) : ℤ)) :
    handle_sequence hass raw tm sa t1 t2 t3 =
      [Event.activate ((resolveScenes raw).getD (n % (resolveScenes raw).length) ""),
       Event.setStore (storeSet (gcStore t1 (loadStore sa)) (generate_key (resolveScenes raw))
         { idx := some (((n + 1) % (resolveScenes raw).length : ℕ) : ℤ),
           ts := some (if (n + 1) % (resolveScenes raw).length = 0 then 0 else t2),
           last_used := some t3 })] := by
  rw [handle_sequence_cons hass raw tm sa t1 t2 t3 hne]
  have hstep : seqStep hass (resolveScenes raw) tm
      ((alistGet (gcStore t1 (loadStore sa)) (generate_key (resolveScenes raw))).getD
        defaultEntry) t2 =
      ((resolveScenes raw).getD (n % (resolveScenes raw).length) "",
       (((n + 1) % (resolveScenes raw).length : ℕ) : ℤ)) := by
    unfold seqStep
    rw [timeoutFires_of_disabled _ _ _ htm, if_neg Bool.false_ne_true, hidx]
    simp only [Option.getD_some]
    rw [natCast_mod_self, natCast_mod_succ]
  rw [hstep]
  simp only [Nat.cast_eq_zero]

/-- Claim C1: with no timeout configured (absent or zero), starting from
a store with no entry for this sequence and cycling repeatedly (the
calls no further apart than the retention window), call n activates
scene n mod len and persists index (n+1) mod len. -/
theorem C1_round_robin (hass : Hass) (raw : RawScenes) (tm : Option ℚ)
    (times : ℕ → ℚ) (s0 : Store)
    (hne : resolveScenes raw ≠ [])
    (htm : tm = none ∨ tm = some 0)
    (h0 : alistGet s0 (generate_key (resolveScenes raw)) = none)
    (hgap : ∀ n, times (n + 1) - times n ≤ CLEANUP_AGE_SECONDS) :
    ∀ n, activatedScene (handle_sequence hass raw tm
          (.valid (runCycle hass raw tm times s0 n)) (times n) (times n) (times n)) =
        some ((resolveScenes raw).getD (n % (resolveScenes raw).length) "") ∧
      alistGet (runCycle hass raw tm times s0 (n + 1)) (generate_key (resolveScenes raw)) =
        some { idx := some (((n + 1) % (resolveScenes raw).length : ℕ) : ℤ),
               ts := some (if (n + 1) % (resolveScenes raw).length = 0 then 0 else times n),
               last_used := some (times n) } := by
  intro n
  induction n with
  | zero =>
      have hload : alistGet (gcStore (times 0) (loadStore (.valid s0)))
          (generate_key (resolveScenes raw)) = none :=
        alistGet_gc_none _ _ _ h0
      have hidx : ((alistGet (gcStore (times 0) (loadStore (.valid s0)))
          (generate_key (resolveScenes raw))).getD defaultEntry).idx =
          some ((0 % (resolveScenes raw).length : ℕ) : ℤ) := by
        rw [hload]
        simp [defaultEntry]
      have hstep := handle_sequence_no_timeout hass raw tm (.valid s0)
        (times 0) (times 0) (times 0) 0 hne htm hidx
      constructor
      · simp only [runCycle]
        rw [hstep, activatedScene_pair]
      · simp only [runCycle]
        rw [hstep, writtenStore_pair, alistGet_storeSet_self]
  | succ n ih =>
      obtain ⟨ih1, ih2⟩ := ih
      have hstale : entryStale (times (n + 1))
          { idx := some (((n + 1) % (resolveScenes raw).length : ℕ) : ℤ),
            ts := some (if (n + 1) % (resolveScenes raw).length = 0 then 0 else times n),
            last_used := some (times n) } = false := by
        have hno : ¬ (times (n + 1) - times n > CLEANUP_AGE_SECONDS) := not_lt.mpr (hgap n)
        simp [entryStale, hno]
      have hgcd : alistGet (gcStore (times (n + 1))
          (loadStore (.valid (runCycle hass raw tm times s0 (n + 1)))))
          (generate_key (resolveScenes raw)) =
          some { idx := some (((n + 1) % (resolveScenes raw).length : ℕ) : ℤ),
                 ts := some (if (n + 1) % (resolveScenes raw).length = 0 then 0 else times n),
                 last_used := some (times n) } :=
        alistGet_gc_some _ _ _ _ ih2 hstale
      have hidx : ((alistGet (gcStore (times (n + 1))
          (loadStore (.valid (runCycle hass raw tm times s0 (n + 1)))))
          (generate_key (resolveScenes raw))).getD defaultEntry).idx =
          some (((n + 1) % (resolveScenes raw).length : ℕ) : ℤ) := by
        rw [hgcd]
        rfl
      have hstep := handle_sequence_no_timeout hass raw tm
        (.valid (runCycle hass raw tm times s0 (n + 1)))
        (times (n + 1)) (times (n + 1)) (times (n + 1)) (n + 1) hne htm hidx
      constructor
      · rw [hstep, activatedScene_pair]
      · rw [runCycle_succ hass raw tm times s0 (n + 1), hstep, writtenStore_pair,
          alistGet_storeSet_self]

/-- Witness for C1 at concrete inputs: second call on a two-scene
sequence activates the second scene and wraps the stored index to 0. -/
theorem C1_round_robin_witness :
    activatedScene (handle_sequence hassEmpty (.listShape ["scene.a", "scene.b"]) none
        (.valid (runCycle hassEmpty (.listShape ["scene.a", "scene.b"]) none
          (fun _ => 0) [] 1)) 0 0 0) = some "scene.b" ∧
    alistGet (runCycle hassEmpty (.listShape ["scene.a", "scene.b"]) none (fun _ => 0) [] 2)
        (generate_key ["scene.a", "scene.b"]) =
      some { idx := some 0, ts := some 0, last_used := some 0 } :=
  C1_round_robin hassEmpty (.listShape ["scene.a", "scene.b"]) none (fun _ => 0) []
    (by decide) (Or.inl rfl) rfl
    (fun _ => by norm_num [CLEANUP_AGE_SECONDS]) 1

end SceneSequencer
